import Mathlib

/-!
Shallow embedding of `src/physics/particles.py` and the per-trial driver logic of
`src/main.py` from the object-oriented Bell-violation simulator.

Python floats are modeled as real numbers; `np.cos` is `Real.cos`, `np.pi` is
`Real.pi`, and the Python float modulo `x % m` (whose result takes the sign of
the divisor) is `fmod x m = x - m * ⌊x / m⌋`.

Mutable objects are embedded by explicit state passing: a `LocalDeterministicPhoton`
method that performs no assignment returns the object unchanged, and the pair of
mutually referencing `OneBitEntangledPhoton` objects is a two-slot heap
(`PairState`) indexed by `EndpointId`, with the `other_photon` attribute (set only
by `entangle`) modeled as `Option EndpointId`: a measurement that dereferences a
never-set `other_photon` is the Python `AttributeError`, i.e. `none`.
-/

namespace BellSim

/-- Python float modulo with the sign of the divisor: `x % m` for floats. -/
noncomputable def fmod (x m : ℝ) : ℝ := x - m * ⌊x / m⌋

/-- `class PolarizationMeasurementOutcome(Enum)`: PASSED = True, ABSORBED = False. -/
inductive PolarizationMeasurementOutcome where
  | PASSED
  | ABSORBED
deriving DecidableEq

export PolarizationMeasurementOutcome (PASSED ABSORBED)

/-- `class LocalDeterministicPhoton`: one attribute `polarization_angle`. -/
structure LocalDeterministicPhoton where
  polarization_angle : ℝ

/-- `LocalDeterministicPhoton.measure_polarization`: PASSED iff
`cos(polarization_angle - detector_angle)^2 > 0.5`. -/
noncomputable def LocalDeterministicPhoton.measure_polarization
    (self : LocalDeterministicPhoton) (detector_angle_rad : ℝ) :
    PolarizationMeasurementOutcome :=
  let angle_difference := self.polarization_angle - detector_angle_rad
  if Real.cos angle_difference ^ 2 > 0.5 then PASSED else ABSORBED

/-- The Python method mutates nothing; as a state transformer it returns the
outcome together with the unchanged object. -/
noncomputable def LocalDeterministicPhoton.measure_polarization_step
    (self : LocalDeterministicPhoton) (detector_angle_rad : ℝ) :
    PolarizationMeasurementOutcome × LocalDeterministicPhoton :=
  (self.measure_polarization detector_angle_rad, self)

/-- Index of one endpoint of an entangled pair (the two objects of one trial). -/
inductive EndpointId where
  | A
  | B
deriving DecidableEq

/-- The partner slot. -/
def EndpointId.other : EndpointId → EndpointId
  | .A => .B
  | .B => .A

/-- Per-object state of `class OneBitEntangledPhoton`.  `__init__` sets
`decided = False`, `use_strategy_b = False`, stores `reference_angle_rad`;
`other_photon` does not exist until `entangle` is called (hence `Option`). -/
structure OneBitEntangledPhoton where
  decided : Bool
  use_strategy_b : Bool
  reference_angle_rad : ℝ
  other_photon : Option EndpointId

/-- `OneBitEntangledPhoton.__init__(reference_angle_rad)`. -/
noncomputable def OneBitEntangledPhoton.init (reference_angle_rad : ℝ) :
    OneBitEntangledPhoton :=
  { decided := false
    use_strategy_b := false
    reference_angle_rad := reference_angle_rad
    other_photon := none }

/-- `OneBitEntangledPhoton.strategy_a`: PASSED iff
`cos(reference_angle - detector_angle)^2 > 0.5`. -/
noncomputable def OneBitEntangledPhoton.strategy_a
    (self : OneBitEntangledPhoton) (detector_angle_rad : ℝ) :
    PolarizationMeasurementOutcome :=
  let angle_difference := self.reference_angle_rad - detector_angle_rad
  if Real.cos angle_difference ^ 2 > 0.5 then PASSED else ABSORBED

/-- `OneBitEntangledPhoton.strategy_b`: PASSED iff
`cos(reference_angle - detector_angle - pi/4)^2 > 0.5`. -/
noncomputable def OneBitEntangledPhoton.strategy_b
    (self : OneBitEntangledPhoton) (detector_angle_rad : ℝ) :
    PolarizationMeasurementOutcome :=
  let angle_difference := self.reference_angle_rad - detector_angle_rad
  if Real.cos (angle_difference - Real.pi / 4) ^ 2 > 0.5 then PASSED else ABSORBED

/-- `OneBitEntangledPhoton.superluminal_communication(use_strategy_b)`: sets the
flag and marks the receiver decided. -/
def OneBitEntangledPhoton.superluminal_communication
    (self : OneBitEntangledPhoton) (use_strategy_b : Bool) :
    OneBitEntangledPhoton :=
  { self with use_strategy_b := use_strategy_b, decided := true }

/-- The two objects of one entangled trial. -/
structure PairState where
  photonA : OneBitEntangledPhoton
  photonB : OneBitEntangledPhoton

/-- Read a slot of the two-object heap. -/
def PairState.get (st : PairState) : EndpointId → OneBitEntangledPhoton
  | .A => st.photonA
  | .B => st.photonB

/-- Write a slot of the two-object heap. -/
def PairState.set (st : PairState) : EndpointId → OneBitEntangledPhoton → PairState
  | .A, p => { st with photonA := p }
  | .B, p => { st with photonB := p }

/-- `OneBitEntangledPhoton.entangle(other_photon)`: stores the partner reference. -/
def PairState.entangle (st : PairState) (i j : EndpointId) : PairState :=
  st.set i { st.get i with other_photon := some j }

/-- `OneBitEntangledPhoton.measure_polarization(detector_angle_rad)` on the object
in slot `i`.  If the object is not yet decided it computes the one-bit flag
`(reference_angle - detector_angle - pi/8) % (pi/2) < pi/4`, stores it on itself,
and calls `superluminal_communication` on `other_photon` (a `none` partner is the
Python `AttributeError`, returned as `none`).  It then applies strategy B or A,
per its current flag, to its own detector angle.  Note that the measuring object
itself is never marked `decided`. -/
noncomputable def PairState.measure_polarization (st : PairState) (i : EndpointId)
    (detector_angle_rad : ℝ) :
    Option (PolarizationMeasurementOutcome × PairState) :=
  let p := st.get i
  let afterDecision : Option PairState :=
    if p.decided then some st
    else
      match p.other_photon with
      | none => none
      | some j =>
        let angle_difference := p.reference_angle_rad - detector_angle_rad
        let use_b : Bool :=
          decide (fmod (angle_difference - Real.pi / 8) (Real.pi / 2) < Real.pi / 4)
        let st1 := st.set i { p with use_strategy_b := use_b }
        some (st1.set j ((st1.get j).superluminal_communication use_b))
  match afterDecision with
  | none => none
  | some st2 =>
    let q := st2.get i
    some (if q.use_strategy_b then q.strategy_b detector_angle_rad
          else q.strategy_a detector_angle_rad, st2)

/-- One trial of `run_entangled_experiment`: two photons with the same reference
angle, mutually entangled. -/
noncomputable def freshEntangledPair (reference_angle : ℝ) : PairState :=
  let a_photon := OneBitEntangledPhoton.init reference_angle
  let b_photon := OneBitEntangledPhoton.init reference_angle
  ((PairState.mk a_photon b_photon).entangle .A .B).entangle .B .A

/-- The measurement sequence of one trial of `run_entangled_experiment`:
measure A first, then B. -/
noncomputable def entangledTrial (reference_angle a_detector_angle b_detector_angle : ℝ) :
    Option (PolarizationMeasurementOutcome × PolarizationMeasurementOutcome × PairState) :=
  match (freshEntangledPair reference_angle).measure_polarization .A a_detector_angle with
  | none => none
  | some (a_outcome, st1) =>
    match st1.measure_polarization .B b_detector_angle with
    | none => none
    | some (b_outcome, st2) => some (a_outcome, b_outcome, st2)

/-- One trial of `run_local_experiment`, measuring A then B, threading each
object's (unchanged) state. -/
noncomputable def localTrialAFirst (a_photon b_photon : LocalDeterministicPhoton)
    (a_detector_angle b_detector_angle : ℝ) :
    PolarizationMeasurementOutcome × PolarizationMeasurementOutcome ×
      LocalDeterministicPhoton × LocalDeterministicPhoton :=
  let ra := a_photon.measure_polarization_step a_detector_angle
  let rb := b_photon.measure_polarization_step b_detector_angle
  (ra.1, rb.1, ra.2, rb.2)

/-- The same local trial with the two measurements performed in the other order. -/
noncomputable def localTrialBFirst (a_photon b_photon : LocalDeterministicPhoton)
    (a_detector_angle b_detector_angle : ℝ) :
    PolarizationMeasurementOutcome × PolarizationMeasurementOutcome ×
      LocalDeterministicPhoton × LocalDeterministicPhoton :=
  let rb := b_photon.measure_polarization_step b_detector_angle
  let ra := a_photon.measure_polarization_step a_detector_angle
  (ra.1, rb.1, ra.2, rb.2)

/-! ### Arithmetic helper lemmas -/

lemma fmod_neg_pi_div_eight : fmod (-(Real.pi / 8)) (Real.pi / 2) = 3 * Real.pi / 8 := by
  have hpi : Real.pi ≠ 0 := Real.pi_ne_zero
  have hq : (-(Real.pi / 8)) / (Real.pi / 2) = -(1 / 4 : ℝ) := by
    field_simp
    ring
  have hfloor : ⌊(-(1 / 4) : ℝ)⌋ = -1 := by
    rw [Int.floor_eq_iff]
    constructor <;> norm_num
  rw [fmod, hq, hfloor]
  push_cast
  ring

lemma not_three_pi_div_eight_lt : ¬ (3 * Real.pi / 8 < Real.pi / 4) := by
  have := Real.pi_pos
  linarith

lemma decide_use_b_zero_zero :
    decide (fmod ((0 : ℝ) - 0 - Real.pi / 8) (Real.pi / 2) < Real.pi / 4) = false := by
  have h : (0 : ℝ) - 0 - Real.pi / 8 = -(Real.pi / 8) := by ring
  rw [h, fmod_neg_pi_div_eight, decide_eq_false_iff_not]
  exact not_three_pi_div_eight_lt

lemma sqrt_two_div_two_sq : (Real.sqrt 2 / 2) ^ 2 = (1 : ℝ) / 2 := by
  rw [div_pow, Real.sq_sqrt (by norm_num : (0 : ℝ) ≤ 2)]
  norm_num

lemma ite_outcome_eq_passed (c : Prop) [Decidable c] :
    ((if c then PASSED else ABSORBED) = PASSED) ↔ c := by
  split <;> simp_all

lemma ite_outcome_eq_absorbed (c : Prop) [Decidable c] :
    ((if c then PASSED else ABSORBED) = ABSORBED) ↔ ¬ c := by
  split <;> simp_all

/-- Shape of a successful entangled measurement: the outcome is the strategy
selected by the measured object's current flag, and the measured object's
reference angle is unchanged. -/
lemma measure_polarization_spec (st : PairState) (i : EndpointId) (d : ℝ)
    (out : PolarizationMeasurementOutcome) (st2 : PairState)
    (h : st.measure_polarization i d = some (out, st2)) :
    out = (if (st2.get i).use_strategy_b then (st2.get i).strategy_b d
           else (st2.get i).strategy_a d) ∧
    (st2.get i).reference_angle_rad = (st.get i).reference_angle_rad := by
  simp only [PairState.measure_polarization] at h
  cases hd : (st.get i).decided with
  | true =>
    simp only [hd, if_true] at h
    obtain ⟨hout, hst⟩ := Prod.mk.injEq .. ▸ Option.some.injEq .. ▸ h
    subst hst
    exact ⟨hout.symm, rfl⟩
  | false =>
    simp only [hd, if_false] at h
    cases ho : (st.get i).other_photon with
    | none => simp [ho] at h
    | some j =>
      simp only [ho] at h
      obtain ⟨hout, hst⟩ := Prod.mk.injEq .. ▸ Option.some.injEq .. ▸ h
      subst hst
      refine ⟨hout.symm, ?_⟩
      cases i <;> cases j <;>
        simp [PairState.get, PairState.set,
          OneBitEntangledPhoton.superluminal_communication]

/-! ### Claim theorems -/

/-- C1 (counterexample): on the concrete trial with reference angle 0, after the
first measurement (endpoint A, detector angle 0) the measuring endpoint's own
`decided` flag is still `false`, refuting "decided is true on both endpoints". -/
theorem C1_measuring_endpoint_not_decided :
    ((freshEntangledPair 0).measure_polarization .A 0).map
      (fun r => (r.2.get .A).decided) = some false := by
  simp [freshEntangledPair, PairState.entangle, PairState.measure_polarization,
    PairState.get, PairState.set, OneBitEntangledPhoton.init,
    OneBitEntangledPhoton.superluminal_communication]

/-- C1 (amended): at pair creation `decided` is false on both endpoints, and the
first measurement on either endpoint sets `decided` to true on the partner
endpoint only, while the measuring endpoint's own `decided` flag stays false. -/
theorem C1_decided_propagates_to_partner_only (r d : ℝ) (i : EndpointId) :
    ((freshEntangledPair r).get i).decided = false ∧
    ((freshEntangledPair r).get i.other).decided = false ∧
    ((freshEntangledPair r).measure_polarization i d).map
      (fun res => ((res.2.get i.other).decided, (res.2.get i).decided))
      = some (true, false) := by
  cases i <;>
    simp [freshEntangledPair, PairState.entangle, PairState.measure_polarization,
      PairState.get, PairState.set, OneBitEntangledPhoton.init,
      OneBitEntangledPhoton.superluminal_communication, EndpointId.other]

/-- C2: measuring the first endpoint of a fresh entangled pair with reference
angle `r` at detector angle `d` sets the shared flag on both endpoints to
`((r - d - pi/8) mod (pi/2)) < pi/4`; concretely, for `r = 0`, `d = 0` the flag
is false and the measurement returns PASSED via strategy A. -/
theorem C2_shared_flag_value (r d : ℝ) (i : EndpointId) :
    ((freshEntangledPair r).measure_polarization i d).map
      (fun res => ((res.2.get i).use_strategy_b, (res.2.get i.other).use_strategy_b))
      = some (decide (fmod (r - d - Real.pi / 8) (Real.pi / 2) < Real.pi / 4),
              decide (fmod (r - d - Real.pi / 8) (Real.pi / 2) < Real.pi / 4)) ∧
    ((freshEntangledPair 0).measure_polarization .A 0).map
      (fun res => ((res.2.get .A).use_strategy_b, res.1)) = some (false, PASSED) := by
  constructor
  · cases i <;>
      simp [freshEntangledPair, PairState.entangle, PairState.measure_polarization,
        PairState.get, PairState.set, OneBitEntangledPhoton.init,
        OneBitEntangledPhoton.superluminal_communication, EndpointId.other]
  · have hlt : ¬ fmod (-(Real.pi / 8)) (Real.pi / 2) < Real.pi / 4 := by
      rw [fmod_neg_pi_div_eight]
      exact not_three_pi_div_eight_lt
    simp [freshEntangledPair, PairState.entangle, PairState.measure_polarization,
      PairState.get, PairState.set, OneBitEntangledPhoton.init,
      OneBitEntangledPhoton.superluminal_communication, hlt,
      OneBitEntangledPhoton.strategy_a]
    norm_num

/-- C3: a successful `measure_polarization` returns the outcome of the strategy
selected by the shared flag, applied to the endpoint's own detector angle:
with the flag false, PASSED iff `cos(r - d)^2 > 0.5`; with the flag true,
PASSED iff `cos(r - d - pi/4)^2 > 0.5`; otherwise ABSORBED. -/
theorem C3_outcome_follows_shared_flag (st : PairState) (i : EndpointId) (d : ℝ)
    (out : PolarizationMeasurementOutcome) (st2 : PairState)
    (h : st.measure_polarization i d = some (out, st2)) :
    (out = PASSED ↔
      (if (st2.get i).use_strategy_b
       then Real.cos ((st.get i).reference_angle_rad - d - Real.pi / 4) ^ 2 > 0.5
       else Real.cos ((st.get i).reference_angle_rad - d) ^ 2 > 0.5)) ∧
    (out = ABSORBED ↔
      ¬ (if (st2.get i).use_strategy_b
         then Real.cos ((st.get i).reference_angle_rad - d - Real.pi / 4) ^ 2 > 0.5
         else Real.cos ((st.get i).reference_angle_rad - d) ^ 2 > 0.5)) := by
  obtain ⟨hout, href⟩ := measure_polarization_spec st i d out st2 h
  subst hout
  cases hu : (st2.get i).use_strategy_b <;>
    simp [hu, OneBitEntangledPhoton.strategy_a, OneBitEntangledPhoton.strategy_b,
      href, ite_outcome_eq_passed, ite_outcome_eq_absorbed]

/-- The pair state produced by the concrete first measurement used to
instantiate the C3 theorem. -/
noncomputable def pairAfterFirstMeasurement : PairState :=
  PairState.mk
    { decided := false, use_strategy_b := false,
      reference_angle_rad := 0, other_photon := some .B }
    { decided := true, use_strategy_b := false,
      reference_angle_rad := 0, other_photon := some .A }

/-- Witness for C3 at the concrete trial `r = 0`, `i = A`, `d = 0`. -/
theorem C3_outcome_follows_shared_flag_witness :
    (freshEntangledPair 0).measure_polarization .A 0
      = some (PASSED, pairAfterFirstMeasurement) ∧
    (PASSED = PASSED ↔
      (if (pairAfterFirstMeasurement.get .A).use_strategy_b
       then Real.cos (((freshEntangledPair 0).get .A).reference_angle_rad - 0 - Real.pi / 4) ^ 2 > 0.5
       else Real.cos (((freshEntangledPair 0).get .A).reference_angle_rad - 0) ^ 2 > 0.5)) := by
  have hlt : ¬ fmod (-(Real.pi / 8)) (Real.pi / 2) < Real.pi / 4 := by
    rw [fmod_neg_pi_div_eight]
    exact not_three_pi_div_eight_lt
  have h : (freshEntangledPair 0).measure_polarization .A 0
      = some (PASSED, pairAfterFirstMeasurement) := by
    simp [freshEntangledPair, PairState.entangle, PairState.measure_polarization,
      PairState.get, PairState.set, OneBitEntangledPhoton.init,
      OneBitEntangledPhoton.superluminal_communication, hlt,
      OneBitEntangledPhoton.strategy_a, pairAfterFirstMeasurement]
    norm_num
  exact ⟨h, (C3_outcome_follows_shared_flag _ .A 0 PASSED _ h).1⟩

/-- C4: in an A-then-B trial the shared decision bit is a function of the
reference angle and A's detector angle only (so it is stable under changes of
B's detector angle), and B's outcome is the strategy fixed by A's measurement
applied to B's own detector angle. -/
theorem C4_decision_independent_of_second_angle (r dA dB dB' : ℝ) :
    (entangledTrial r dA dB).map
        (fun res => ((res.2.2.get .B).use_strategy_b, res.2.1))
      = some (decide (fmod (r - dA - Real.pi / 8) (Real.pi / 2) < Real.pi / 4),
          if fmod (r - dA - Real.pi / 8) (Real.pi / 2) < Real.pi / 4
          then (if Real.cos (r - dB - Real.pi / 4) ^ 2 > 0.5 then PASSED else ABSORBED)
          else (if Real.cos (r - dB) ^ 2 > 0.5 then PASSED else ABSORBED)) ∧
    (entangledTrial r dA dB).map (fun res => (res.2.2.get .B).use_strategy_b)
      = (entangledTrial r dA dB').map (fun res => (res.2.2.get .B).use_strategy_b) := by
  constructor
  · by_cases hu : fmod (r - dA - Real.pi / 8) (Real.pi / 2) < Real.pi / 4 <;>
      simp [entangledTrial, freshEntangledPair, PairState.entangle,
        PairState.measure_polarization, PairState.get, PairState.set,
        OneBitEntangledPhoton.init, OneBitEntangledPhoton.superluminal_communication,
        OneBitEntangledPhoton.strategy_a, OneBitEntangledPhoton.strategy_b, hu]
  · by_cases hu : fmod (r - dA - Real.pi / 8) (Real.pi / 2) < Real.pi / 4 <;>
      simp [entangledTrial, freshEntangledPair, PairState.entangle,
        PairState.measure_polarization, PairState.get, PairState.set,
        OneBitEntangledPhoton.init, OneBitEntangledPhoton.superluminal_communication,
        OneBitEntangledPhoton.strategy_a, OneBitEntangledPhoton.strategy_b, hu]

/-- C5: the local photon's measurement is PASSED iff
`cos(polarization_angle - detector_angle)^2 > 0.5` and ABSORBED otherwise (the
embedded function is total over ℝ); concretely, polarization 0 measured at
`pi/2` gives ABSORBED. -/
theorem C5_local_measurement_malus_threshold (p d : ℝ) :
    ((LocalDeterministicPhoton.mk p).measure_polarization d = PASSED ↔
      Real.cos (p - d) ^ 2 > 0.5) ∧
    ((LocalDeterministicPhoton.mk p).measure_polarization d = ABSORBED ↔
      ¬ Real.cos (p - d) ^ 2 > 0.5) ∧
    (LocalDeterministicPhoton.mk 0).measure_polarization (Real.pi / 2) = ABSORBED := by
  refine ⟨?_, ?_, ?_⟩
  · simp [LocalDeterministicPhoton.measure_polarization, ite_outcome_eq_passed]
  · simp [LocalDeterministicPhoton.measure_polarization, ite_outcome_eq_absorbed]
  · norm_num [LocalDeterministicPhoton.measure_polarization, zero_sub,
      Real.cos_neg, Real.cos_pi_div_two]

/-- C6: measuring a local photon at its own polarization angle gives PASSED,
and at an offset of exactly `pi/4` (either side) gives ABSORBED, since
`cos^2 = 0.5` fails the strict comparison. -/
theorem C6_local_boundary_behavior (p : ℝ) :
    (LocalDeterministicPhoton.mk p).measure_polarization p = PASSED ∧
    (LocalDeterministicPhoton.mk p).measure_polarization (p + Real.pi / 4) = ABSORBED ∧
    (LocalDeterministicPhoton.mk p).measure_polarization (p - Real.pi / 4) = ABSORBED := by
  have h1 : p - (p + Real.pi / 4) = -(Real.pi / 4) := by ring
  have h2 : p - (p - Real.pi / 4) = Real.pi / 4 := by ring
  refine ⟨?_, ?_, ?_⟩
  · norm_num [LocalDeterministicPhoton.measure_polarization]
  · norm_num [LocalDeterministicPhoton.measure_polarization, h1, Real.cos_neg,
      sqrt_two_div_two_sq]
  · norm_num [LocalDeterministicPhoton.measure_polarization, h2,
      sqrt_two_div_two_sq]

/-- C7 (counterexample): measuring the same endpoint twice in one trial is not
met by any assertion or fault — the second call returns the normal outcome
PASSED on the concrete trial with reference angle 0 and detector angle 0. -/
theorem C7_double_measurement_returns_normal_outcome :
    (((freshEntangledPair 0).measure_polarization .A 0).bind
        (fun res => res.2.measure_polarization .A 0)).map (fun res2 => res2.1)
      = some PASSED := by
  have hlt : ¬ fmod (-(Real.pi / 8)) (Real.pi / 2) < Real.pi / 4 := by
    rw [fmod_neg_pi_div_eight]
    exact not_three_pi_div_eight_lt
  norm_num [freshEntangledPair, PairState.entangle, PairState.measure_polarization,
    PairState.get, PairState.set, OneBitEntangledPhoton.init,
    OneBitEntangledPhoton.superluminal_communication, hlt,
    OneBitEntangledPhoton.strategy_a]

/-- C7 (amended): double measurement of one endpoint is not defended against:
on a fresh mutually entangled pair, a second `measure_polarization` call on the
same endpoint with the same detector angle succeeds and returns the same normal
outcome as the first call (no assertion or fault). -/
theorem C7_double_measurement_not_defended (r d : ℝ) (i : EndpointId) :
    (((freshEntangledPair r).measure_polarization i d).bind
        (fun res => (res.2.measure_polarization i d).map
          (fun res2 => decide (res2.1 = res.1)))) = some true := by
  cases i <;>
    by_cases hu : fmod (r - d - Real.pi / 8) (Real.pi / 2) < Real.pi / 4 <;>
    simp [freshEntangledPair, PairState.entangle, PairState.measure_polarization,
      PairState.get, PairState.set, OneBitEntangledPhoton.init,
      OneBitEntangledPhoton.superluminal_communication,
      OneBitEntangledPhoton.strategy_a, OneBitEntangledPhoton.strategy_b, hu]

/-- C8: the local photon's measurement is pure: as a state transformer it
leaves the object unchanged, a repeated call with the same angle returns the
same outcome, and a two-photon trial gives the same outcomes and final states
in either measurement order. -/
theorem C8_local_measurement_pure (a_photon b_photon : LocalDeterministicPhoton)
    (dA dB : ℝ) :
    (a_photon.measure_polarization_step dA).2 = a_photon ∧
    ((a_photon.measure_polarization_step dA).2.measure_polarization_step dA).1
        = (a_photon.measure_polarization_step dA).1 ∧
    localTrialAFirst a_photon b_photon dA dB
        = localTrialBFirst a_photon b_photon dA dB :=
  ⟨rfl, rfl, rfl⟩

/-- C10: measuring an undecided endpoint dereferences `other_photon`: with no
prior `entangle` call the measurement fails (`none`, the Python
AttributeError), while with a partner reference set it succeeds. -/
theorem C10_measurement_requires_entanglement (st : PairState) (i : EndpointId)
    (d : ℝ) (hdec : (st.get i).decided = false) :
    ((st.get i).other_photon = none → st.measure_polarization i d = none) ∧
    (∀ j, (st.get i).other_photon = some j →
      ∃ out st2, st.measure_polarization i d = some (out, st2)) := by
  constructor
  · intro ho
    simp [PairState.measure_polarization, hdec, ho]
  · intro j ho
    simp only [PairState.measure_polarization, hdec, ho, Bool.false_eq_true,
      if_false]
    exact ⟨_, _, rfl⟩

/-- Witness for C10: a never-entangled photon's measurement returns `none`,
and a mutually entangled fresh pair's measurement succeeds. -/
theorem C10_measurement_requires_entanglement_witness :
    (PairState.mk (OneBitEntangledPhoton.init 0)
        (OneBitEntangledPhoton.init 0)).measure_polarization .A 0 = none ∧
    ∃ out st2, (freshEntangledPair 0).measure_polarization .A 0 = some (out, st2) :=
  ⟨(C10_measurement_requires_entanglement
      (PairState.mk (OneBitEntangledPhoton.init 0) (OneBitEntangledPhoton.init 0))
      .A 0 rfl).1 rfl,
   (C10_measurement_requires_entanglement (freshEntangledPair 0) .A 0 rfl).2 .B rfl⟩

end BellSim
